import Mathlib

/-!
Shallow embedding of the freight-rate calculation backend.

Source files:
* `src/api/freight-rate/services/freight-rate.ts` — density, freight-class /
  distance-class lookup, rate lookup, final price (`calculateRate`).
* `src/api/freight-rate/controllers/freight-rate.ts` — hash-based postal-code
  distance estimate and warehouse auto-selection.
* the `freight-calc` controller variants — Google distance-matrix resolver
  with fixed fallback distance, and the freight.com quote comparator with
  its 1 s / 30 s polling loop.

JavaScript numbers are modelled as exact rationals (`ℚ`); `Math.floor` /
`Math.ceil` are `Int.floor` / `Int.ceil`, and `Math.round` is
`fun x => ⌊x + 1/2⌋` (round half toward positive infinity), matching the
JS semantics on the rational fragment.  Fallible code returns
`Except String`, carrying the thrown `Error` message.
-/

namespace FreightLogic

/-- A cart item as received by the service: weight in grams, dimensions in
millimetres, and a quantity.  All fields are JS numbers, hence `ℚ`. -/
structure CartItem where
  weight : ℚ
  length : ℚ
  width : ℚ
  height : ℚ
  quantity : ℚ
  deriving Repr, DecidableEq

/-- JavaScript `Math.round`: round half toward positive infinity. -/
def jsRound (x : ℚ) : ℤ := ⌊x + 1/2⌋

/-- `Math.round(x * 100) / 100` — round to two decimal places as in the
service's `calculateDensity`. -/
def round2 (x : ℚ) : ℚ := (jsRound (x * 100) : ℚ) / 100

/-- Accumulated weight in pounds:
`totalWeightLbs += (item.weight * item.quantity) / 453.592` per item. -/
def totalWeightLbs : List CartItem → ℚ
  | [] => 0
  | item :: rest => item.weight * item.quantity / 453.592 + totalWeightLbs rest

/-- Accumulated volume in cubic inches:
`totalVolumeCubicInches += (length * width * height * quantity) / 16387.064`
per item. -/
def totalVolumeCubicInches : List CartItem → ℚ
  | [] => 0
  | item :: rest =>
      item.length * item.width * item.height * item.quantity / 16387.064 +
        totalVolumeCubicInches rest

/-- `calculateDensity` from the freight-rate service: throws when the
accumulated volume is zero, otherwise returns
`Math.round((totalWeightLbs / totalVolumeCubicInches) * 100) / 100`. -/
def calculateDensity (items : List CartItem) : Except String ℚ :=
  if totalVolumeCubicInches items = 0 then
    .error "Invalid item dimensions: volume cannot be zero"
  else
    .ok (round2 (totalWeightLbs items / totalVolumeCubicInches items))

/-- A row of the freight-class table. -/
structure FreightClassRecord where
  id : ℕ
  freightClass : String
  minDensity : ℚ
  maxDensity : ℚ
  deriving Repr, DecidableEq

/-- A row of the distance-class table. -/
structure DistanceClassRecord where
  id : ℕ
  distanceClass : String
  minDistance : ℚ
  maxDistance : ℚ
  deriving Repr, DecidableEq

/-- A row of the price table. -/
structure RateEntry where
  id : ℕ
  freightClass : ℕ
  distanceClass : ℕ
  pricePer100lbs : ℚ
  deriving Repr, DecidableEq

/-- The read-only reference data the service queries through Strapi.
`find` with filters returns the matching rows in store order, modelled by
`List.filter` over the stored list. -/
structure Tables where
  freightClasses : List FreightClassRecord
  distanceClasses : List DistanceClassRecord
  priceTable : List RateEntry
  deriving Repr

/-- The filter `minDensity: { $lte: density }, maxDensity: { $gte: density }`
used by `mapDensityToFreightClass`. -/
def densityCovers (r : FreightClassRecord) (density : ℚ) : Bool :=
  decide (r.minDensity ≤ density) && decide (density ≤ r.maxDensity)

/-- `mapDensityToFreightClass`: query the freight-class table for rows whose
density range covers `density`; throw if none match, else take the first
result. -/
def mapDensityToFreightClass (t : List FreightClassRecord) (density : ℚ) :
    Except String FreightClassRecord :=
  match t.filter (fun r => densityCovers r density) with
  | [] => .error ("No freight class found for density " ++ toString density)
  | r :: _ => .ok r

/-- The filter `minDistance: { $lte: distance }, maxDistance: { $gte: distance }`
used by `findDistanceClass`. -/
def distanceCovers (r : DistanceClassRecord) (distance : ℚ) : Bool :=
  decide (r.minDistance ≤ distance) && decide (distance ≤ r.maxDistance)

/-- `findDistanceClass`: query the distance-class table for rows whose
distance range covers `distance`; throw if none match, else take the first
result. -/
def findDistanceClass (t : List DistanceClassRecord) (distance : ℚ) :
    Except String DistanceClassRecord :=
  match t.filter (fun r => distanceCovers r distance) with
  | [] => .error ("No distance class found for distance " ++ toString distance ++ "km")
  | r :: _ => .ok r

/-- `getApplicableRates`: price-table rows whose `freightClass` and
`distanceClass` ids both match. -/
def getApplicableRates (pt : List RateEntry) (freightClassId distanceClassId : ℕ) :
    List RateEntry :=
  pt.filter (fun r => r.freightClass == freightClassId && r.distanceClass == distanceClassId)

/-- The distance validation in `calculateRate`:
`input.distance < 0` is rejected. -/
def distanceIsInvalid (d : ℚ) : Bool := decide (d < 0)

/-- Input to `calculateRate` (the `distance === undefined || null` check is
made vacuous by the type). -/
structure RateCalculationInput where
  items : List CartItem
  distance : ℚ
  deriving Repr

/-- Result of `calculateRate`; `applicableRates` is the projection
`{ id, pricePer100lbs }`, and `lowestRate` holds the final (marked-up,
floored) price in cents. -/
structure RateCalculationResult where
  density : ℚ
  freightClass : String
  applicableRates : List (ℕ × ℚ)
  lowestRate : ℤ
  distance : ℚ
  deriving Repr, DecidableEq

/-- `calculateRate` from the freight-rate service: validate, compute density,
map to freight class and distance class, look up applicable rates, take the
first as the lowest, and apply
`Math.floor(pricePer100lbs * Math.ceil(totalWeightLbs / 100) * 1.15)`. -/
def calculateRate (t : Tables) (input : RateCalculationInput) :
    Except String RateCalculationResult :=
  if input.items = [] then
    .error "No items provided for rate calculation"
  else if distanceIsInvalid input.distance then
    .error "Distance is required and must be a positive number"
  else
    match calculateDensity input.items with
    | .error e => .error e
    | .ok density =>
      match mapDensityToFreightClass t.freightClasses density with
      | .error e => .error e
      | .ok freightClassRecord =>
        match findDistanceClass t.distanceClasses input.distance with
        | .error e => .error e
        | .ok distanceClass =>
          match getApplicableRates t.priceTable freightClassRecord.id distanceClass.id with
          | [] =>
            .error ("No rates found for freight class " ++
              freightClassRecord.freightClass ++ " and distance class " ++
              distanceClass.distanceClass)
          | lowestRate :: restRates =>
            let units100lbs : ℤ := ⌈totalWeightLbs input.items / 100⌉
            let totalPrice : ℚ := lowestRate.pricePer100lbs * units100lbs
            let finalPrice : ℤ := ⌊totalPrice * 1.15⌋
            .ok { density := density
                  freightClass := freightClassRecord.freightClass
                  applicableRates :=
                    (lowestRate :: restRates).map (fun r => (r.id, r.pricePer100lbs))
                  lowestRate := finalPrice
                  distance := input.distance }

/-- The character-code sum used by the controllers:
`combinedCode.split('').reduce((acc, char) => acc + char.charCodeAt(0), 0)`. -/
def strHash (s : String) : ℕ := (s.data.map Char.toNat).sum

/-- `estimatePostalCodeDistance` from the controller: hash the concatenation
of the two postal codes and fold into `[100, 5000]` by `hash % 4900 + 100`. -/
def estimatePostalCodeDistance (postal1 postal2 : String) : ℕ :=
  strHash (postal1 ++ postal2) % 4900 + 100

/-- `estimateDistance` from the service — the same hash-based estimate. -/
def estimateDistance (originPostalCode destinationPostalCode : String) : ℕ :=
  strHash (originPostalCode ++ destinationPostalCode) % 4900 + 100

/-- A warehouse record; candidate shipment origin. -/
structure Warehouse where
  id : ℕ
  name : String
  zipcode : String
  deriving Repr, DecidableEq

/-- The controller's closest-warehouse scan:
starting from `closestWarehouse = warehouses[0]` with its distance, walk the
list and replace the current best exactly when `distance < closestDistance`. -/
def closestLoop (dest : String) :
    List Warehouse → Warehouse → ℕ → Warehouse × ℕ
  | [], best, bestDistance => (best, bestDistance)
  | w :: rest, best, bestDistance =>
      let d := estimatePostalCodeDistance w.zipcode dest
      if d < bestDistance then closestLoop dest rest w d
      else closestLoop dest rest best bestDistance

/-- Warehouse auto-selection for a non-empty candidate list `w0 :: rest`:
the controller seeds the scan with the first warehouse and then iterates
over the whole list. -/
def selectClosestWarehouse (dest : String) (w0 : Warehouse) (rest : List Warehouse) :
    Warehouse × ℕ :=
  closestLoop dest (w0 :: rest)
    w0 (estimatePostalCodeDistance w0.zipcode dest)

/-- Origin resolution of the hash-estimate controller when no `warehouseId`
is supplied (lines 67–108): enumerate warehouses; on an empty list or an
enumeration error fall back to `originPostalCode` — leaving `distance` at its
initial value `0` — else pick the closest warehouse.  The result is
`(warehousePostalCode, selectedWarehouseId, distance)`. -/
def resolveNoWarehouseId (warehousesResult : Except String (List Warehouse))
    (originPostalCode : Option String) (destinationPostalCode : String) :
    Except String (String × Option ℕ × ℕ) :=
  match warehousesResult with
  | .error _ =>
    match originPostalCode with
    | some origin => .ok (origin, none, 0)
    | none => .error "Failed to determine warehouse location"
  | .ok [] =>
    match originPostalCode with
    | some origin => .ok (origin, none, 0)
    | none => .error "No warehouses found and originPostalCode not provided"
  | .ok (w0 :: rest) =>
    let selected := selectClosestWarehouse destinationPostalCode w0 rest
    .ok (selected.1.zipcode, some selected.1.id, selected.2)

/-- The google-distance controller variant's closest-warehouse selection:
`warehouseDistances.reduce((prev, curr) => curr.distance < prev.distance ? curr : prev)`
over the parallel-computed `(warehouse, distance)` pairs; JS `reduce` without
an initial value seeds the accumulator with the first element. -/
def reduceClosest (first : Warehouse × ℚ) (rest : List (Warehouse × ℚ)) :
    Warehouse × ℚ :=
  rest.foldl (fun prev curr => if curr.2 < prev.2 then curr else prev) first

/-- One element of the Google distance-matrix response. -/
structure DistanceMatrixElement where
  status : String
  distanceMeters : ℚ
  deriving Repr

/-- The Google distance-matrix response: a provider-level status and rows of
elements. -/
structure DistanceMatrix where
  status : String
  rows : List (List DistanceMatrixElement)
  deriving Repr

/-- `getGoogleDistance` from the freight-calc controller: with no
`GOOGLE_API_KEY` it returns the fixed fallback distance `500` without calling
the provider; otherwise it requires provider status `OK` and a first element
with status `OK`, and converts metres to kilometres. -/
def getGoogleDistance (apiKey : Option String)
    (originPostalCode destinationPostalCode : String)
    (response : Except String DistanceMatrix) : Except String ℚ :=
  match apiKey with
  | none => .ok 500
  | some _ =>
    match response with
    | .error e => .error e
    | .ok matrix =>
      if matrix.status ≠ "OK" then
        .error ("Google API error: " ++ matrix.status)
      else
        match matrix.rows.head?.bind List.head? with
        | none => .error "Could not calculate distance: No element"
        | some element =>
          if element.status ≠ "OK" then
            .error ("Could not calculate distance: " ++ element.status)
          else
            .ok (element.distanceMeters / 1000)

/-- A normalized freight.com rate; `total` is the decimal-currency total. -/
structure FreightComRate where
  serviceId : String
  carrierName : String
  serviceName : String
  total : ℚ
  transitTimeDays : ℕ
  deriving Repr, DecidableEq

/-- Outcome of one poll `GET /rate/{requestId}`: an HTTP error (the promise
rejects), a not-yet-done status, or a done status carrying the rates. -/
inductive PollOutcome where
  | err : String → PollOutcome
  | pending : PollOutcome
  | done : List FreightComRate → PollOutcome
  deriving Repr

/-- The external quote provider's observable behaviour for one request:
the configured credential, the submit outcome, and the outcome of the poll
issued at each elapsed second. -/
structure QuoteEnv where
  apiKey : Option String
  submit : Except String String
  poll : ℕ → PollOutcome

/-- The 1-second polling loop with its 30-second deadline: at most `fuel`
polls starting at time `t`; a poll error rejects (caught by the caller), a
done status resolves with the rates, and running out of fuel is the
30-second timeout rejection (also caught by the caller).  `none` is the
caught-and-degraded "no rates" result. -/
def pollLoop (poll : ℕ → PollOutcome) : ℕ → ℕ → Option (List FreightComRate)
  | 0, _ => none
  | fuel + 1, t =>
    match poll t with
    | .err _ => none
    | .done rates => some rates
    | .pending => pollLoop poll fuel (t + 1)

/-- `getFreightComRates`: returns `null` when `FREIGHTCOM_API_KEY` is unset;
otherwise submits the rate request and polls once per second under the
30-second deadline.  Every failure (submit error, poll error, timeout) is
caught and degraded to `null`. -/
def getFreightComRates (env : QuoteEnv) : Option (List FreightComRate) :=
  match env.apiKey with
  | none => none
  | some _ =>
    match env.submit with
    | .error _ => none
    | .ok _ => pollLoop env.poll 30 0

/-- The `comparison` block of the freight-calc response. -/
structure QuoteComparison where
  internalPrice : ℤ
  freightApiLowestPrice : ℚ
  deriving Repr, DecidableEq

/-- `Math.min` over the cent-normalized totals of a non-empty rate list. -/
def lowestExternalCents (first : FreightComRate) (rest : List FreightComRate) : ℚ :=
  rest.foldl (fun acc r => min acc (r.total * 100)) (first.total * 100)

/-- The body of the freight-calc response. -/
structure CalcResponse where
  internalCalculation : RateCalculationResult
  freightApiRates : Option (List FreightComRate)
  comparison : Option QuoteComparison
  deriving Repr

/-- Assembly of the freight-calc response after the internal calculation:
`freightApiRates: freightApiRates || null` and
`comparison: freightApiRates && freightApiRates.length > 0 ? {...} : null`. -/
def buildCalcResponse (internalResult : RateCalculationResult) (env : QuoteEnv) :
    CalcResponse :=
  let freightApiRates := getFreightComRates env
  { internalCalculation := internalResult
    freightApiRates := freightApiRates
    comparison :=
      match freightApiRates with
      | some (first :: rest) =>
          some { internalPrice := internalResult.lowestRate
                 freightApiLowestPrice := lowestExternalCents first rest }
      | some [] => none
      | none => none }

end FreightLogic

namespace FreightLogic

lemma totalWeightLbs_nonneg (items : List CartItem)
    (h : ∀ it ∈ items, 0 ≤ it.weight ∧ 0 ≤ it.quantity) :
    0 ≤ totalWeightLbs items := by
  induction items with
  | nil => simp [totalWeightLbs]
  | cons it rest ih =>
      have hit := h it (by simp)
      have hrest : 0 ≤ totalWeightLbs rest := ih fun x hx => h x (by simp [hx])
      have hterm : 0 ≤ it.weight * it.quantity / 453.592 := by
        apply div_nonneg (mul_nonneg hit.1 hit.2)
        norm_num
      simpa [totalWeightLbs] using add_nonneg hterm hrest

lemma totalVolumeCubicInches_nonneg (items : List CartItem)
    (h : ∀ it ∈ items, 0 ≤ it.length ∧ 0 ≤ it.width ∧ 0 ≤ it.height ∧ 0 ≤ it.quantity) :
    0 ≤ totalVolumeCubicInches items := by
  induction items with
  | nil => simp [totalVolumeCubicInches]
  | cons it rest ih =>
      have hit := h it (by simp)
      have hrest : 0 ≤ totalVolumeCubicInches rest := ih fun x hx => h x (by simp [hx])
      have hterm : 0 ≤ it.length * it.width * it.height * it.quantity / 16387.064 := by
        apply div_nonneg (mul_nonneg (mul_nonneg (mul_nonneg hit.1 hit.2.1) hit.2.2.1) hit.2.2.2)
        norm_num
      simpa [totalVolumeCubicInches] using add_nonneg hterm hrest

lemma totalVolumeCubicInches_pos (first : CartItem) (rest : List CartItem)
    (h : ∀ it ∈ first :: rest,
      0 < it.length ∧ 0 < it.width ∧ 0 < it.height ∧ 0 < it.quantity) :
    0 < totalVolumeCubicInches (first :: rest) := by
  have hfirst := h first (by simp)
  have hrest : 0 ≤ totalVolumeCubicInches rest :=
    totalVolumeCubicInches_nonneg rest fun x hx =>
      ⟨(h x (by simp [hx])).1.le, (h x (by simp [hx])).2.1.le,
        (h x (by simp [hx])).2.2.1.le, (h x (by simp [hx])).2.2.2.le⟩
  have hterm : 0 < first.length * first.width * first.height * first.quantity / 16387.064 := by
    apply div_pos
      (mul_pos (mul_pos (mul_pos hfirst.1 hfirst.2.1) hfirst.2.2.1) hfirst.2.2.2)
    norm_num
  have := add_pos_of_pos_of_nonneg hterm hrest
  simpa [totalVolumeCubicInches] using this

lemma round2_nonneg (x : ℚ) (h : 0 ≤ x) : 0 ≤ round2 x := by
  unfold round2 jsRound
  apply div_nonneg _ (by norm_num : (0:ℚ) ≤ 100)
  have : (0:ℤ) ≤ ⌊x * 100 + 1/2⌋ := Int.floor_nonneg.mpr (by positivity)
  exact_mod_cast this

/-- C2 (amended): for every non-empty item list in which every item has
strictly positive weight, dimensions, and quantity, `calculateDensity`
returns `round2(totalWeightLbs / totalVolumeCubicInches)` and that value is
nonnegative.  (The strict positivity stated by the claim fails: rounding to
two decimals sends small positive densities to `0`; and the empty list,
which satisfies the positivity hypothesis vacuously, produces an error
rather than a density.) -/
theorem calculateDensity_round2_of_pos (items : List CartItem)
    (hne : items ≠ [])
    (hpos : ∀ it ∈ items,
      0 < it.weight ∧ 0 < it.length ∧ 0 < it.width ∧ 0 < it.height ∧ 0 < it.quantity) :
    calculateDensity items =
        .ok (round2 (totalWeightLbs items / totalVolumeCubicInches items)) ∧
      0 ≤ round2 (totalWeightLbs items / totalVolumeCubicInches items) := by
  obtain ⟨first, rest, rfl⟩ := List.exists_cons_of_ne_nil hne
  have hV : 0 < totalVolumeCubicInches (first :: rest) :=
    totalVolumeCubicInches_pos first rest fun x hx =>
      ⟨(hpos x hx).2.1, (hpos x hx).2.2.1, (hpos x hx).2.2.2.1, (hpos x hx).2.2.2.2⟩
  have hW : 0 ≤ totalWeightLbs (first :: rest) :=
    totalWeightLbs_nonneg _ fun x hx => ⟨(hpos x hx).1.le, (hpos x hx).2.2.2.2.le⟩
  refine ⟨?_, round2_nonneg _ (div_nonneg hW hV.le)⟩
  simp [calculateDensity, hV.ne']

set_option maxRecDepth 8000 in
/-- Part of C2's correction: a single item with weight 1 g, dimensions
1000 mm and quantity 1 — all strictly positive — for which `calculateDensity`
returns the density `0`, which is not strictly positive.  This refutes the
claim's strict-positivity clause as stated. -/
theorem calculateDensity_pos_items_zero_density :
    0 < (CartItem.mk 1 1000 1000 1000 1).weight ∧
      0 < (CartItem.mk 1 1000 1000 1000 1).length ∧
      0 < (CartItem.mk 1 1000 1000 1000 1).width ∧
      0 < (CartItem.mk 1 1000 1000 1000 1).height ∧
      0 < (CartItem.mk 1 1000 1000 1000 1).quantity ∧
      calculateDensity [CartItem.mk 1 1000 1000 1000 1] = .ok 0 ∧
      ¬ (0 : ℚ) < 0 := by
  refine ⟨by norm_num, by norm_num, by norm_num, by norm_num, by norm_num, ?_, lt_irrefl 0⟩
  norm_num [calculateDensity, totalVolumeCubicInches, totalWeightLbs, round2, jsRound]

/-- Witness for C2 (amended) at a concrete single-item list. -/
theorem calculateDensity_round2_of_pos_witness :
    ([CartItem.mk 90718.4 254 254 254 1] ≠ ([] : List CartItem)) ∧
      (∀ it ∈ [CartItem.mk 90718.4 254 254 254 1],
        0 < it.weight ∧ 0 < it.length ∧ 0 < it.width ∧ 0 < it.height ∧ 0 < it.quantity) ∧
      (calculateDensity [CartItem.mk 90718.4 254 254 254 1] =
          .ok (round2 (totalWeightLbs [CartItem.mk 90718.4 254 254 254 1] /
            totalVolumeCubicInches [CartItem.mk 90718.4 254 254 254 1])) ∧
        0 ≤ round2 (totalWeightLbs [CartItem.mk 90718.4 254 254 254 1] /
          totalVolumeCubicInches [CartItem.mk 90718.4 254 254 254 1])) := by
  have h1 : [CartItem.mk 90718.4 254 254 254 1] ≠ ([] : List CartItem) := by simp
  have h2 : ∀ it ∈ [CartItem.mk 90718.4 254 254 254 1],
      0 < it.weight ∧ 0 < it.length ∧ 0 < it.width ∧ 0 < it.height ∧ 0 < it.quantity := by
    intro it hit
    simp only [List.mem_singleton] at hit
    subst hit
    refine ⟨by norm_num, by norm_num, by norm_num, by norm_num, by norm_num⟩
  exact ⟨h1, h2, calculateDensity_round2_of_pos _ h1 h2⟩

lemma find?_eq_head?_filter {α : Type} (p : α → Bool) :
    ∀ l : List α, l.find? p = (l.filter p).head? := by
  intro l
  induction l with
  | nil => rfl
  | cons a l ih =>
      cases h : p a
      · rw [List.find?_cons_of_neg _ (by simp [h]), List.filter_cons_of_neg (by simp [h]), ih]
      · rw [List.find?_cons_of_pos _ h, List.filter_cons_of_pos h, List.head?_cons]

/-- C4: the freight-class lookup (resp. distance-class lookup) succeeds
exactly when some configured record satisfies
`minDensity ≤ density ≤ maxDensity` (resp. `minDistance ≤ distance ≤
maxDistance`), both boundaries inclusive; it fails with the
classification-not-found error exactly when no configured range covers the
value; and the returned record is always the first matching record in store
order. -/
theorem classLookup_inclusive_first_match
    (fct : List FreightClassRecord) (dct : List DistanceClassRecord)
    (density distance : ℚ) :
    ((∃ r, mapDensityToFreightClass fct density = .ok r) ↔
        ∃ r ∈ fct, r.minDensity ≤ density ∧ density ≤ r.maxDensity) ∧
      ((mapDensityToFreightClass fct density =
          .error ("No freight class found for density " ++ toString density)) ↔
        ∀ r ∈ fct, ¬(r.minDensity ≤ density ∧ density ≤ r.maxDensity)) ∧
      ((mapDensityToFreightClass fct density).toOption =
        fct.find? (fun r => densityCovers r density)) ∧
      ((∃ r, findDistanceClass dct distance = .ok r) ↔
        ∃ r ∈ dct, r.minDistance ≤ distance ∧ distance ≤ r.maxDistance) ∧
      ((findDistanceClass dct distance =
          .error ("No distance class found for distance " ++ toString distance ++ "km")) ↔
        ∀ r ∈ dct, ¬(r.minDistance ≤ distance ∧ distance ≤ r.maxDistance)) ∧
      ((findDistanceClass dct distance).toOption =
        dct.find? (fun r => distanceCovers r distance)) := by
  have hdc : ∀ r : FreightClassRecord, densityCovers r density = true ↔
      (r.minDensity ≤ density ∧ density ≤ r.maxDensity) := by
    intro r; simp [densityCovers]
  have hds : ∀ r : DistanceClassRecord, distanceCovers r distance = true ↔
      (r.minDistance ≤ distance ∧ distance ≤ r.maxDistance) := by
    intro r; simp [distanceCovers]
  refine ⟨?_, ?_, ?_, ?_, ?_, ?_⟩
  · unfold mapDensityToFreightClass
    rcases hf : fct.filter (fun r => densityCovers r density) with _ | ⟨r, rs⟩
    · simp only [List.filter_eq_nil_iff] at hf
      constructor
      · rintro ⟨r, hr⟩; simp at hr
      · rintro ⟨r, hr, hcov⟩
        exact absurd ((hdc r).mpr hcov) (hf r hr)
    · have hr : r ∈ fct.filter (fun x => densityCovers x density) := by simp [hf]
      rw [List.mem_filter] at hr
      constructor
      · rintro -; exact ⟨r, hr.1, (hdc r).mp hr.2⟩
      · rintro -; exact ⟨r, rfl⟩
  · unfold mapDensityToFreightClass
    rcases hf : fct.filter (fun r => densityCovers r density) with _ | ⟨r, rs⟩
    · simp only [List.filter_eq_nil_iff] at hf
      simp only [true_iff]
      exact fun r hr hcov => hf r hr ((hdc r).mpr hcov)
    · have hr : r ∈ fct.filter (fun x => densityCovers x density) := by simp [hf]
      rw [List.mem_filter] at hr
      constructor
      · intro h; exact absurd h (by simp)
      · intro h; exact absurd ((hdc r).mp hr.2) (h r hr.1)
  · unfold mapDensityToFreightClass
    rw [find?_eq_head?_filter]
    rcases hf : fct.filter (fun r => densityCovers r density) with _ | ⟨r, rs⟩ <;> rfl
  · unfold findDistanceClass
    rcases hf : dct.filter (fun r => distanceCovers r distance) with _ | ⟨r, rs⟩
    · simp only [List.filter_eq_nil_iff] at hf
      constructor
      · rintro ⟨r, hr⟩; simp at hr
      · rintro ⟨r, hr, hcov⟩
        exact absurd ((hds r).mpr hcov) (hf r hr)
    · have hr : r ∈ dct.filter (fun x => distanceCovers x distance) := by simp [hf]
      rw [List.mem_filter] at hr
      constructor
      · rintro -; exact ⟨r, hr.1, (hds r).mp hr.2⟩
      · rintro -; exact ⟨r, rfl⟩
  · unfold findDistanceClass
    rcases hf : dct.filter (fun r => distanceCovers r distance) with _ | ⟨r, rs⟩
    · simp only [List.filter_eq_nil_iff] at hf
      simp only [true_iff]
      exact fun r hr hcov => hf r hr ((hds r).mpr hcov)
    · have hr : r ∈ dct.filter (fun x => distanceCovers x distance) := by simp [hf]
      rw [List.mem_filter] at hr
      constructor
      · intro h; exact absurd h (by simp)
      · intro h; exact absurd ((hds r).mp hr.2) (h r hr.1)
  · unfold findDistanceClass
    rw [find?_eq_head?_filter]
    rcases hf : dct.filter (fun r => distanceCovers r distance) with _ | ⟨r, rs⟩ <;> rfl

lemma closestLoop_spec (dest : String) :
    ∀ (ws : List Warehouse) (best : Warehouse) (bd : ℕ),
      bd = estimatePostalCodeDistance best.zipcode dest →
      (closestLoop dest ws best bd).2 =
          estimatePostalCodeDistance (closestLoop dest ws best bd).1.zipcode dest ∧
        (closestLoop dest ws best bd).2 ≤ bd ∧
        (∀ w ∈ ws,
          (closestLoop dest ws best bd).2 ≤ estimatePostalCodeDistance w.zipcode dest) ∧
        ((closestLoop dest ws best bd).1 = best ∨
          ∃ pre post, ws = pre ++ (closestLoop dest ws best bd).1 :: post ∧
            (closestLoop dest ws best bd).2 < bd ∧
            ∀ w ∈ pre,
              (closestLoop dest ws best bd).2 < estimatePostalCodeDistance w.zipcode dest) := by
  intro ws
  induction ws with
  | nil =>
      intro best bd hbd
      exact ⟨hbd, le_refl _, by simp, Or.inl rfl⟩
  | cons w rest ih =>
      intro best bd hbd
      by_cases h : estimatePostalCodeDistance w.zipcode dest < bd
      · have hl : closestLoop dest (w :: rest) best bd =
            closestLoop dest rest w (estimatePostalCodeDistance w.zipcode dest) := by
          simp [closestLoop, h]
        obtain ⟨h1, h2, h3, h4⟩ := ih w (estimatePostalCodeDistance w.zipcode dest) rfl
        rw [hl]
        refine ⟨h1, le_of_lt (lt_of_le_of_lt h2 h), ?_, ?_⟩
        · intro w' hw'
          rcases List.mem_cons.mp hw' with rfl | hw'
          · exact h2
          · exact h3 w' hw'
        · rcases h4 with heq | ⟨pre, post, hsplit, hlt, hpre⟩
          · exact Or.inr ⟨[], rest, by rw [heq]; rfl, lt_of_le_of_lt h2 h, by simp⟩
          · refine Or.inr
              ⟨w :: pre, post, by rw [List.cons_append, ← hsplit], lt_trans hlt h, ?_⟩
            intro w' hw'
            rcases List.mem_cons.mp hw' with rfl | hw'
            · exact hlt
            · exact hpre w' hw'
      · have hl : closestLoop dest (w :: rest) best bd = closestLoop dest rest best bd := by
          simp [closestLoop, h]
        obtain ⟨h1, h2, h3, h4⟩ := ih best bd hbd
        rw [hl]
        push_neg at h
        refine ⟨h1, h2, ?_, ?_⟩
        · intro w' hw'
          rcases List.mem_cons.mp hw' with rfl | hw'
          · exact le_trans h2 h
          · exact h3 w' hw'
        · rcases h4 with heq | ⟨pre, post, hsplit, hlt, hpre⟩
          · exact Or.inl heq
          · refine Or.inr ⟨w :: pre, post, by rw [List.cons_append, ← hsplit], hlt, ?_⟩
            intro w' hw'
            rcases List.mem_cons.mp hw' with rfl | hw'
            · exact lt_of_lt_of_le hlt h
            · exact hpre w' hw'

lemma reduceClosest_spec :
    ∀ (rest : List (Warehouse × ℚ)) (first : Warehouse × ℚ),
      (reduceClosest first rest).2 ≤ first.2 ∧
        (∀ q ∈ rest, (reduceClosest first rest).2 ≤ q.2) ∧
        (reduceClosest first rest = first ∨
          ∃ pre post, rest = pre ++ reduceClosest first rest :: post ∧
            (reduceClosest first rest).2 < first.2 ∧
            ∀ q ∈ pre, (reduceClosest first rest).2 < q.2) := by
  intro rest
  induction rest with
  | nil => intro first; exact ⟨le_refl _, by simp, Or.inl rfl⟩
  | cons q rest ih =>
      intro first
      by_cases h : q.2 < first.2
      · have hl : reduceClosest first (q :: rest) = reduceClosest q rest := by
          simp [reduceClosest, List.foldl_cons, h]
        obtain ⟨h1, h2, h3⟩ := ih q
        rw [hl]
        refine ⟨le_of_lt (lt_of_le_of_lt h1 h), ?_, ?_⟩
        · intro q' hq'
          rcases List.mem_cons.mp hq' with rfl | hq'
          · exact h1
          · exact h2 q' hq'
        · rcases h3 with heq | ⟨pre, post, hsplit, hlt, hpre⟩
          · exact Or.inr ⟨[], rest, by rw [heq]; rfl, lt_of_le_of_lt h1 h, by simp⟩
          · refine Or.inr
              ⟨q :: pre, post, by rw [List.cons_append, ← hsplit], lt_trans hlt h, ?_⟩
            intro q' hq'
            rcases List.mem_cons.mp hq' with rfl | hq'
            · exact hlt
            · exact hpre q' hq'
      · have hl : reduceClosest first (q :: rest) = reduceClosest first rest := by
          simp [reduceClosest, List.foldl_cons, h]
        obtain ⟨h1, h2, h3⟩ := ih first
        rw [hl]
        push_neg at h
        refine ⟨h1, ?_, ?_⟩
        · intro q' hq'
          rcases List.mem_cons.mp hq' with rfl | hq'
          · exact le_trans h1 h
          · exact h2 q' hq'
        · rcases h3 with heq | ⟨pre, post, hsplit, hlt, hpre⟩
          · exact Or.inl heq
          · refine Or.inr ⟨q :: pre, post, by rw [List.cons_append, ← hsplit], hlt, ?_⟩
            intro q' hq'
            rcases List.mem_cons.mp hq' with rfl | hq'
            · exact lt_of_lt_of_le hlt h
            · exact hpre q' hq'

/-- C6: for a non-empty candidate list, warehouse auto-selection returns a
warehouse of minimal computed distance, and everything strictly before the
selected warehouse in enumeration order has strictly greater distance — so
on ties the first-encountered candidate wins (`<`, not `≤`).  This holds
both for the hash-estimate controller's scan (`selectClosestWarehouse`) and
for the google-distance variant's `reduce` over `(warehouse, distance)`
pairs (`reduceClosest`). -/
theorem warehouse_autoselect_first_strict_min (dest : String)
    (w0 : Warehouse) (rest : List Warehouse)
    (p0 : Warehouse × ℚ) (prest : List (Warehouse × ℚ)) :
    ((selectClosestWarehouse dest w0 rest).2 =
        estimatePostalCodeDistance (selectClosestWarehouse dest w0 rest).1.zipcode dest) ∧
      (∀ w ∈ w0 :: rest,
        (selectClosestWarehouse dest w0 rest).2 ≤
          estimatePostalCodeDistance w.zipcode dest) ∧
      (∃ pre post, w0 :: rest = pre ++ (selectClosestWarehouse dest w0 rest).1 :: post ∧
        ∀ w ∈ pre,
          (selectClosestWarehouse dest w0 rest).2 <
            estimatePostalCodeDistance w.zipcode dest) ∧
      (∀ q ∈ p0 :: prest, (reduceClosest p0 prest).2 ≤ q.2) ∧
      (∃ pre post, p0 :: prest = pre ++ reduceClosest p0 prest :: post ∧
        ∀ q ∈ pre, (reduceClosest p0 prest).2 < q.2) := by
  obtain ⟨h1, h2, h3, h4⟩ :=
    closestLoop_spec dest (w0 :: rest) w0 (estimatePostalCodeDistance w0.zipcode dest) rfl
  obtain ⟨g1, g2, g3⟩ := reduceClosest_spec prest p0
  refine ⟨h1, h3, ?_, ?_, ?_⟩
  · rcases h4 with heq | ⟨pre, post, hsplit, hlt, hpre⟩
    · exact ⟨[], rest, by simp only [selectClosestWarehouse]; rw [heq]; rfl, by simp⟩
    · exact ⟨pre, post, hsplit, hpre⟩
  · intro q hq
    rcases List.mem_cons.mp hq with rfl | hq
    · exact g1
    · exact g2 q hq
  · rcases g3 with heq | ⟨pre, post, hsplit, hlt, hpre⟩
    · exact ⟨[], prest, by rw [heq]; rfl, by simp⟩
    · refine ⟨p0 :: pre, post, by rw [List.cons_append, ← hsplit], ?_⟩
      intro q hq
      rcases List.mem_cons.mp hq with rfl | hq
      · exact hlt
      · exact hpre q hq

/-- C3: whenever the accumulated volume of the item list is zero,
`calculateDensity` fails with the `InvalidDimensionsError` message
"Invalid item dimensions: volume cannot be zero" and never returns a
density value. -/
theorem calculateDensity_zero_volume_error (items : List CartItem)
    (h : totalVolumeCubicInches items = 0) :
    calculateDensity items = .error "Invalid item dimensions: volume cannot be zero" := by
  simp [calculateDensity, h]

/-- Witness for C3 at the concrete input of a single item all of whose
dimensions are zero. -/
theorem calculateDensity_zero_volume_error_witness :
    totalVolumeCubicInches [⟨5000, 0, 0, 0, 2⟩] = 0 ∧
      calculateDensity [⟨5000, 0, 0, 0, 2⟩] =
        .error "Invalid item dimensions: volume cannot be zero" := by
  have h : totalVolumeCubicInches [⟨5000, 0, 0, 0, 2⟩] = 0 := by
    norm_num [totalVolumeCubicInches]
  exact ⟨h, calculateDensity_zero_volume_error _ h⟩

/-- C5: the deterministic estimate equals `100 + (hash mod 4900)` over the
stable character-code hash of the concatenated postal codes, the controller
and service versions agree (purity: the result is a function of the input
pair alone), and the output always lies in `[100, 5000]`. -/
theorem estimateDistance_hash_and_range (origin destination : String) :
    estimateDistance origin destination =
        100 + strHash (origin ++ destination) % 4900 ∧
      estimatePostalCodeDistance origin destination =
        estimateDistance origin destination ∧
      100 ≤ estimateDistance origin destination ∧
      estimateDistance origin destination ≤ 5000 := by
  have hmod : strHash (origin ++ destination) % 4900 < 4900 :=
    Nat.mod_lt _ (by norm_num)
  unfold estimateDistance estimatePostalCodeDistance
  omega

/-- C10: the hash sums the character codes of the concatenated string, so
the estimated postal-code distance is invariant under swapping origin and
destination. -/
theorem estimatePostalCodeDistance_comm (a b : String) :
    estimatePostalCodeDistance a b = estimatePostalCodeDistance b a := by
  have hsum : ∀ x y : String, strHash (x ++ y) = strHash x + strHash y := by
    intro x y
    simp [strHash]
  unfold estimatePostalCodeDistance
  rw [hsum, hsum, Nat.add_comm (strHash a)]

/-- C8: with no routing API credential configured, `getGoogleDistance`
returns the fixed default distance `500` for every origin/destination pair
and every would-be provider response, instead of raising an error; the
pipeline's distance validation accepts that default. -/
theorem getGoogleDistance_no_key_default (origin destination : String)
    (response : Except String DistanceMatrix) :
    getGoogleDistance none origin destination response = .ok 500 ∧
      distanceIsInvalid 500 = false := by
  refine ⟨rfl, ?_⟩
  norm_num [distanceIsInvalid]

/-- C9: in the hash-estimate controller, when no `warehouseId` is given and
warehouse enumeration yields an empty list (or throws) while an
`originPostalCode` is supplied, resolution succeeds with the supplied origin
and distance `0` — no distance is estimated from that origin — and the
service's distance validation accepts `0` since it rejects only negative
distances. -/
theorem resolveNoWarehouseId_fallback_zero_distance
    (origin destinationPostalCode : String) (e : String) :
    resolveNoWarehouseId (.ok []) (some origin) destinationPostalCode =
        .ok (origin, none, 0) ∧
      resolveNoWarehouseId (.error e) (some origin) destinationPostalCode =
        .ok (origin, none, 0) ∧
      distanceIsInvalid 0 = false := by
  refine ⟨rfl, rfl, ?_⟩
  norm_num [distanceIsInvalid]

/-- C1: whenever `calculateRate` succeeds and the first entry of its
applicable-rate list carries base price `P` (in cents), the returned final
price equals `floor(P * ceil(totalWeightLbs / 100) * 1.15)`. -/
theorem calculateRate_final_price (t : Tables) (input : RateCalculationInput)
    (res : RateCalculationResult) (entry : ℕ × ℚ)
    (hok : calculateRate t input = .ok res)
    (hhead : res.applicableRates.head? = some entry) :
    res.lowestRate =
      ⌊entry.2 * ((⌈totalWeightLbs input.items / 100⌉ : ℤ) : ℚ) * 1.15⌋ := by
  unfold calculateRate at hok
  split at hok
  · exact Except.noConfusion hok
  split at hok
  · exact Except.noConfusion hok
  split at hok
  · exact Except.noConfusion hok
  split at hok
  · exact Except.noConfusion hok
  split at hok
  · exact Except.noConfusion hok
  split at hok
  · exact Except.noConfusion hok
  simp only [Except.ok.injEq] at hok
  subst hok
  simp only [List.map_cons, List.head?_cons, Option.some.injEq] at hhead
  subst hhead
  rfl

/-- Witness for C1: a one-item shipment of exactly 200 lbs with a single
applicable rate of 4500 cents per 100 lbs: 2 units of 100 lbs, final price
`⌊9000 * 1.15⌋ = 10350` cents. -/
theorem calculateRate_final_price_witness :
    calculateRate
        ⟨[⟨1, "70", 0, 100⟩], [⟨1, "A", 0, 10000⟩], [⟨1, 1, 1, 4500⟩]⟩
        ⟨[⟨90718.4, 254, 254, 254, 1⟩], 500⟩ =
      .ok ⟨0.2, "70", [(1, 4500)], 10350, 500⟩ ∧
    (RateCalculationResult.mk 0.2 "70" [(1, 4500)] 10350 500).applicableRates.head? =
      some (1, 4500) ∧
    (RateCalculationResult.mk 0.2 "70" [(1, 4500)] 10350 500).lowestRate =
      ⌊((1, (4500 : ℚ)) : ℕ × ℚ).2 *
        ((⌈totalWeightLbs [⟨90718.4, 254, 254, 254, 1⟩] / 100⌉ : ℤ) : ℚ) * 1.15⌋ ∧
    (RateCalculationResult.mk 0.2 "70" [(1, 4500)] 10350 500).lowestRate = 10350 := by
  have hok : calculateRate
      ⟨[⟨1, "70", 0, 100⟩], [⟨1, "A", 0, 10000⟩], [⟨1, 1, 1, 4500⟩]⟩
      ⟨[⟨90718.4, 254, 254, 254, 1⟩], 500⟩ =
      .ok ⟨0.2, "70", [(1, 4500)], 10350, 500⟩ := by
    norm_num [calculateRate, calculateDensity, totalVolumeCubicInches, totalWeightLbs,
      round2, jsRound, mapDensityToFreightClass, findDistanceClass, getApplicableRates,
      densityCovers, distanceCovers, distanceIsInvalid, List.filter]
  have hhead : (RateCalculationResult.mk 0.2 "70" [(1, 4500)] 10350 500).applicableRates.head? =
      some (1, 4500) := rfl
  have h3 := calculateRate_final_price _ _ _ _ hok hhead
  exact ⟨hok, hhead, h3, rfl⟩

lemma pollLoop_none_of_no_done (poll : ℕ → PollOutcome) :
    ∀ (fuel t : ℕ),
      (∀ u, t ≤ u → u < t + fuel → ∀ rates, poll u ≠ .done rates) →
      pollLoop poll fuel t = none := by
  intro fuel
  induction fuel with
  | zero => intro t h; rfl
  | succ n ih =>
      intro t h
      unfold pollLoop
      cases hp : poll t with
      | err e => rfl
      | done rates => exact absurd hp (h t le_rfl (by omega) rates)
      | pending => exact ih (t + 1) fun u hu1 hu2 => h u (by omega) (by omega)

lemma pollLoop_none_of_err (poll : ℕ → PollOutcome) :
    ∀ (fuel t te : ℕ), t ≤ te → te < t + fuel →
      (∃ e, poll te = .err e) →
      (∀ u, t ≤ u → u < te → poll u = .pending) →
      pollLoop poll fuel t = none := by
  intro fuel
  induction fuel with
  | zero => intro t te h1 h2; exact fun _ _ => absurd h2 (by omega)
  | succ n ih =>
      intro t te h1 h2 hex hpend
      unfold pollLoop
      rcases Nat.eq_or_lt_of_le h1 with rfl | hlt
      · obtain ⟨e, he⟩ := hex
        rw [he]
      · rw [hpend t le_rfl hlt]
        exact ih (t + 1) te hlt (by omega) hex fun u hu1 hu2 => hpend u (by omega) hu2

/-- C7: any failure of the external quote comparator — missing credentials,
a failed submit, the provider never reporting completion within the
30-poll (30-second) deadline, or a poll error before completion — yields
`getFreightComRates = none`, so the response carries
`freightApiRates = null` and `comparison = null` while the internal
calculation result is returned unchanged. -/
theorem comparator_failure_degrades_to_null (env : QuoteEnv)
    (internalResult : RateCalculationResult)
    (hfail :
      env.apiKey = none ∨
      (∃ e, env.submit = .error e) ∨
      (∀ t, t < 30 → ∀ rates, env.poll t ≠ .done rates) ∨
      (∃ te, te < 30 ∧ (∃ e, env.poll te = .err e) ∧
        ∀ u, u < te → env.poll u = .pending)) :
    getFreightComRates env = none ∧
      (buildCalcResponse internalResult env).freightApiRates = none ∧
      (buildCalcResponse internalResult env).comparison = none ∧
      (buildCalcResponse internalResult env).internalCalculation = internalResult := by
  have hnone : getFreightComRates env = none := by
    unfold getFreightComRates
    rcases hfail with hk | ⟨e, hs⟩ | hnd | ⟨te, hte, hex, hpend⟩
    · rw [hk]
    · cases hak : env.apiKey with
      | none => rfl
      | some k => rw [hs]
    · cases hak : env.apiKey with
      | none => rfl
      | some k =>
          cases hs : env.submit with
          | error e => rfl
          | ok reqId =>
              exact pollLoop_none_of_no_done env.poll 30 0
                fun u hu1 hu2 rates => hnd u (by omega) rates
    · cases hak : env.apiKey with
      | none => rfl
      | some k =>
          cases hs : env.submit with
          | error e => rfl
          | ok reqId =>
              exact pollLoop_none_of_err env.poll 30 0 te (Nat.zero_le te) (by omega) hex
                fun u hu1 hu2 => hpend u hu2
  refine ⟨hnone, ?_, ?_, rfl⟩
  · simp [buildCalcResponse, hnone]
  · simp [buildCalcResponse, hnone]

/-- Witness for C7 at a concrete environment with no configured credential
(the provider, if it were consulted, would never report completion). -/
theorem comparator_failure_degrades_to_null_witness :
    (QuoteEnv.mk none (.ok "req") (fun _ => .pending)).apiKey = none ∧
      (getFreightComRates (QuoteEnv.mk none (.ok "req") (fun _ => .pending)) = none ∧
        (buildCalcResponse ⟨0, "70", [], 0, 0⟩
            (QuoteEnv.mk none (.ok "req") (fun _ => .pending))).freightApiRates = none ∧
        (buildCalcResponse ⟨0, "70", [], 0, 0⟩
            (QuoteEnv.mk none (.ok "req") (fun _ => .pending))).comparison = none ∧
        (buildCalcResponse ⟨0, "70", [], 0, 0⟩
            (QuoteEnv.mk none (.ok "req") (fun _ => .pending))).internalCalculation =
          ⟨0, "70", [], 0, 0⟩) :=
  ⟨rfl, comparator_failure_degrades_to_null _ _ (Or.inl rfl)⟩

end FreightLogic
